import Mathlib

/-!
Verification of the `Avocado_Price_Allocation` optimization model and of the
surrounding `gurobi-machinelearning` glue behaviour.

The central artefact of the repository snapshot is the LP-format export of the
avocado model (`src/unnamed/part_000`): the model produced by the price
optimization notebook after `add_predictor_constr` embedded the trained
linear-regression predictor.  We transcribe that LP file literally: its
variables, its objective, its constraints `R0` .. `R24` and
`LinearRegressionConstr1.linreg[i,0]`, and its bounds section, over exact
rationals.  Every decimal of the LP file appears below as the corresponding
rational literal, one clause per LP line.
-/

/-- An assignment of values to the variables of the `Avocado_Price_Allocation`
model, as listed in the LP file: allocations `x[0..7]`, waste `w[0..7]`, sales
`s[0..7]`, predicted demand `demand[0..7]` and the regression input matrix
`reg_features[0..7, 0..9]`. -/
structure AvocadoVars where
  x : Fin 8 → ℚ
  w : Fin 8 → ℚ
  s : Fin 8 → ℚ
  demand : Fin 8 → ℚ
  reg_features : Fin 8 → Fin 10 → ℚ

/-- Explicit eight-term sum, as the LP file writes sums term by term. -/
def sum8 (f : Fin 8 → ℚ) : ℚ :=
  f 0 + f 1 + f 2 + f 3 + f 4 + f 5 + f 6 + f 7

/-- Explicit ten-term dot product, matching the ten coefficient/variable
products written out in each `linreg[i,0]` constraint of the LP file. -/
def dot10 (a b : Fin 10 → ℚ) : ℚ :=
  a 0 * b 0 + a 1 * b 1 + a 2 * b 2 + a 3 * b 3 + a 4 * b 4 +
  a 5 * b 5 + a 6 * b 6 + a 7 * b 7 + a 8 * b 8 + a 9 * b 9

/-- The ten coefficients of constraint `LinearRegressionConstr1.linreg[0,0]`
(LP lines 37-46): `0.2426931536778747 reg_features[0,0] - 1.433019836643237
reg_features[0,1] + ... - 0.5485105058308409 reg_features[0,9]`. -/
def linregCoefs0 : Fin 10 → ℚ
  | 0 => 2426931536778747/10^16
  | 1 => -(1433019836643237/10^15)
  | 2 => 301924379063788/10^14
  | 3 => 1815032872390411/10^15
  | 4 => -(1713812073973461/10^15)
  | 5 => -(5839901666611677/10^16)
  | 6 => -(2601799448641272/10^15)
  | 7 => -(1607693023184433/10^16)
  | 8 => 2203770104890248/10^15
  | 9 => -(5485105058308409/10^16)

/-- The ten coefficients of `linreg[1,0]` (LP lines 47-56). -/
def linregCoefs1 : Fin 10 → ℚ
  | 0 => 2426931536778747/10^16
  | 1 => -(1433019836643237/10^15)
  | 2 => 301924379063788/10^14
  | 3 => 1815032872390411/10^15
  | 4 => -(1713812073973461/10^15)
  | 5 => -(5839901666611677/10^16)
  | 6 => -(2601799448641272/10^15)
  | 7 => -(1607693023184433/10^16)
  | 8 => 2203770104890248/10^15
  | 9 => -(5485105058308409/10^16)

/-- The ten coefficients of `linreg[2,0]` (LP lines 57-66). -/
def linregCoefs2 : Fin 10 → ℚ
  | 0 => 2426931536778747/10^16
  | 1 => -(1433019836643237/10^15)
  | 2 => 301924379063788/10^14
  | 3 => 1815032872390411/10^15
  | 4 => -(1713812073973461/10^15)
  | 5 => -(5839901666611677/10^16)
  | 6 => -(2601799448641272/10^15)
  | 7 => -(1607693023184433/10^16)
  | 8 => 2203770104890248/10^15
  | 9 => -(5485105058308409/10^16)

/-- The ten coefficients of `linreg[3,0]` (LP lines 67-76). -/
def linregCoefs3 : Fin 10 → ℚ
  | 0 => 2426931536778747/10^16
  | 1 => -(1433019836643237/10^15)
  | 2 => 301924379063788/10^14
  | 3 => 1815032872390411/10^15
  | 4 => -(1713812073973461/10^15)
  | 5 => -(5839901666611677/10^16)
  | 6 => -(2601799448641272/10^15)
  | 7 => -(1607693023184433/10^16)
  | 8 => 2203770104890248/10^15
  | 9 => -(5485105058308409/10^16)

/-- The ten coefficients of `linreg[4,0]` (LP lines 77-86). -/
def linregCoefs4 : Fin 10 → ℚ
  | 0 => 2426931536778747/10^16
  | 1 => -(1433019836643237/10^15)
  | 2 => 301924379063788/10^14
  | 3 => 1815032872390411/10^15
  | 4 => -(1713812073973461/10^15)
  | 5 => -(5839901666611677/10^16)
  | 6 => -(2601799448641272/10^15)
  | 7 => -(1607693023184433/10^16)
  | 8 => 2203770104890248/10^15
  | 9 => -(5485105058308409/10^16)

/-- The ten coefficients of `linreg[5,0]` (LP lines 87-96). -/
def linregCoefs5 : Fin 10 → ℚ
  | 0 => 2426931536778747/10^16
  | 1 => -(1433019836643237/10^15)
  | 2 => 301924379063788/10^14
  | 3 => 1815032872390411/10^15
  | 4 => -(1713812073973461/10^15)
  | 5 => -(5839901666611677/10^16)
  | 6 => -(2601799448641272/10^15)
  | 7 => -(1607693023184433/10^16)
  | 8 => 2203770104890248/10^15
  | 9 => -(5485105058308409/10^16)

/-- The ten coefficients of `linreg[6,0]` (LP lines 97-106). -/
def linregCoefs6 : Fin 10 → ℚ
  | 0 => 2426931536778747/10^16
  | 1 => -(1433019836643237/10^15)
  | 2 => 301924379063788/10^14
  | 3 => 1815032872390411/10^15
  | 4 => -(1713812073973461/10^15)
  | 5 => -(5839901666611677/10^16)
  | 6 => -(2601799448641272/10^15)
  | 7 => -(1607693023184433/10^16)
  | 8 => 2203770104890248/10^15
  | 9 => -(5485105058308409/10^16)

/-- The ten coefficients of `linreg[7,0]` (LP lines 107-116). -/
def linregCoefs7 : Fin 10 → ℚ
  | 0 => 2426931536778747/10^16
  | 1 => -(1433019836643237/10^15)
  | 2 => 301924379063788/10^14
  | 3 => 1815032872390411/10^15
  | 4 => -(1713812073973461/10^15)
  | 5 => -(5839901666611677/10^16)
  | 6 => -(2601799448641272/10^15)
  | 7 => -(1607693023184433/10^16)
  | 8 => 2203770104890248/10^15
  | 9 => -(5485105058308409/10^16)

/-- The coefficient row of constraint `linreg[i,0]`, per input row `i`. -/
def linregCoefRow : Fin 8 → Fin 10 → ℚ
  | 0 => linregCoefs0
  | 1 => linregCoefs1
  | 2 => linregCoefs2
  | 3 => linregCoefs3
  | 4 => linregCoefs4
  | 5 => linregCoefs5
  | 6 => linregCoefs6
  | 7 => linregCoefs7

/-- Right-hand side of constraint `linreg[i,0]`: the LP file writes the
decimal `5.439310052165032` at the end of each of the eight constraints. -/
def linregRHSRow : Fin 8 → ℚ
  | 0 => 5439310052165032/10^15
  | 1 => 5439310052165032/10^15
  | 2 => 5439310052165032/10^15
  | 3 => 5439310052165032/10^15
  | 4 => 5439310052165032/10^15
  | 5 => 5439310052165032/10^15
  | 6 => 5439310052165032/10^15
  | 7 => 5439310052165032/10^15

/-- Lower bounds on `x[i]` from the LP Bounds section (lines 118-125). -/
def xlb : Fin 8 → ℚ
  | 0 => 206357351/10^8
  | 1 => 184544313/10^8
  | 2 => 236442449/10^8
  | 3 => 2196899/10^7
  | 4 => 368713018/10^8
  | 5 => 21977637/10^7
  | 6 => 326010217/10^8
  | 7 => 105893809/10^8

/-- Upper bounds on `x[i]` from the LP Bounds section (lines 118-125). -/
def xub : Fin 8 → ℚ
  | 0 => 7094764730000001/10^15
  | 1 => 6168571610000001/10^15
  | 2 => 8836406220000001/10^15
  | 3 => 91798395/10^8
  | 4 => 1032317459/10^8
  | 5 => 781047462/10^8
  | 6 => 1127474911/10^8
  | 7 => 357549921/10^8

/-- Lower bounds on `reg_features[i,j]` from the LP Bounds section (lines
126-205): the one-hot region columns 0-6, the year column 7 pinned to `7` and
the peak column 9 pinned to `1` appear as fixed (`= c`) bounds; the price
column 8 has only `reg_features[i,8] <= 2`, so its lower bound is the LP
default `0`. -/
def regLB : Fin 8 → Fin 10 → ℚ
  | 0, 7 => 7
  | 0, 9 => 1
  | 0, _ => 0
  | 1, 0 => 1
  | 1, 7 => 7
  | 1, 9 => 1
  | 1, _ => 0
  | 2, 1 => 1
  | 2, 7 => 7
  | 2, 9 => 1
  | 2, _ => 0
  | 3, 2 => 1
  | 3, 7 => 7
  | 3, 9 => 1
  | 3, _ => 0
  | 4, 4 => 1
  | 4, 7 => 7
  | 4, 9 => 1
  | 4, _ => 0
  | 5, 5 => 1
  | 5, 7 => 7
  | 5, 9 => 1
  | 5, _ => 0
  | 6, 6 => 1
  | 6, 7 => 7
  | 6, 9 => 1
  | 6, _ => 0
  | 7, 3 => 1
  | 7, 7 => 7
  | 7, 9 => 1
  | 7, _ => 0

/-- Upper bounds on `reg_features[i,j]` from the LP Bounds section: identical
to `regLB` for the pinned columns, and `2` for the price column 8. -/
def regUB (i : Fin 8) (j : Fin 10) : ℚ :=
  if j = 8 then 2 else regLB i j

/-- The Bounds section of the LP file as a predicate on assignments: `x` lies
within its per-region bounds; `s` and `w` do not appear in the Bounds section,
so the LP default `0 <= v` applies; `reg_features` lies within `regLB`/`regUB`;
`demand` is declared `free` (LP lines 206-213), so it is unconstrained. -/
def boundsSat (v : AvocadoVars) : Prop :=
  (∀ i, xlb i ≤ v.x i ∧ v.x i ≤ xub i) ∧
  (∀ i, 0 ≤ v.s i) ∧
  (∀ i, 0 ≤ v.w i) ∧
  (∀ i j, regLB i j ≤ v.reg_features i j ∧ v.reg_features i j ≤ regUB i j)

/-- Feasibility for the `Avocado_Price_Allocation` model: the conjunction of
all constraints of the LP file in order — `R0` (supply, line 12), `R1`-`R8`
(`-x[i] + s[i] <= 0`, lines 13-20), `R9`-`R16` (`s[i] - demand[i] <= 0`, lines
21-28), `R17`-`R24` (`-x[i] + s[i] + w[i] = 0`, lines 29-36), the eight
`linreg[i,0]` equalities (lines 37-116), and the Bounds section. -/
def feasible (v : AvocadoVars) : Prop :=
  sum8 v.x = 30 ∧
  (∀ i, -v.x i + v.s i ≤ 0) ∧
  (∀ i, v.s i - v.demand i ≤ 0) ∧
  (∀ i, -v.x i + v.s i + v.w i = 0) ∧
  (∀ i, dot10 (linregCoefRow i) (v.reg_features i) + v.demand i = linregRHSRow i) ∧
  boundsSat v

/-- The objective of the LP file (`Maximize`, lines 3-10), transcribed term by
term: transport costs on `x`, waste costs on `w`, and the quadratic revenue
block `[2 s[i] * reg_features[i,8] + ...] / 2`. -/
def objective (v : AvocadoVars) : ℚ :=
  -(3/10) * v.x 0 - (1/10) * v.x 1 - (4/10) * v.x 2 - (5/10) * v.x 3
  - (3/10) * v.x 4 - (2/10) * v.x 5 - (2/10) * v.x 6 - (2/10) * v.x 7
  - (1/10) * v.w 0 - (1/10) * v.w 1 - (1/10) * v.w 2 - (1/10) * v.w 3
  - (1/10) * v.w 4 - (1/10) * v.w 5 - (1/10) * v.w 6 - (1/10) * v.w 7
  + (2 * v.s 0 * v.reg_features 0 8 + 2 * v.s 1 * v.reg_features 1 8
     + 2 * v.s 2 * v.reg_features 2 8 + 2 * v.s 3 * v.reg_features 3 8
     + 2 * v.s 4 * v.reg_features 4 8 + 2 * v.s 5 * v.reg_features 5 8
     + 2 * v.s 6 * v.reg_features 6 8 + 2 * v.s 7 * v.reg_features 7 8) / 2

/-- Coefficient vector of the trained linear-regression predictor recovered
from the LP constraints: each `linreg[i,0]` row reads
`sum_j a_j * reg_features[i,j] + demand[i] = rhs`, so the predictor's
coefficient on feature `j` is `-a_j`. -/
def linRegCoef (j : Fin 10) : ℚ := -(linregCoefs0 j)

/-- Intercept of the trained linear-regression predictor: the common
right-hand side of the `linreg[i,0]` constraints. -/
def linRegIntercept : ℚ := 5439310052165032/10^15

/-- The trained predictor's affine prediction function on one feature row:
`intercept + sum_j coef[j] * row[j]`. -/
def linRegPredict (row : Fin 10 → ℚ) : ℚ := linRegIntercept + dot10 linRegCoef row

/-- Names of the constraints of the LP file, one constructor per family:
`R0` is `supply`, `R1`-`R8` are `saleSupply i`, `R9`-`R16` are `saleDemand i`,
`R17`-`R24` are `waste i`, and `LinearRegressionConstr1.linreg[i,0]` is
`linreg i 0` (the second index ranges over the single predictor output). -/
inductive LPConstr where
  | supply : LPConstr
  | saleSupply : Fin 8 → LPConstr
  | saleDemand : Fin 8 → LPConstr
  | waste : Fin 8 → LPConstr
  | linreg : Fin 8 → Fin 1 → LPConstr
deriving DecidableEq

/-- The constraint list of the LP file, in file order (lines 12-116). -/
def lpConstrs : List LPConstr :=
  [LPConstr.supply] ++
  (List.finRange 8).map LPConstr.saleSupply ++
  (List.finRange 8).map LPConstr.saleDemand ++
  (List.finRange 8).map LPConstr.waste ++
  (List.finRange 8).map (fun i => LPConstr.linreg i 0)

/-- Satisfaction of one named LP constraint, transcribing its equation. -/
def constrSat (v : AvocadoVars) : LPConstr → Prop
  | LPConstr.supply => sum8 v.x = 30
  | LPConstr.saleSupply i => -v.x i + v.s i ≤ 0
  | LPConstr.saleDemand i => v.s i - v.demand i ≤ 0
  | LPConstr.waste i => -v.x i + v.s i + v.w i = 0
  | LPConstr.linreg i _ =>
      dot10 (linregCoefRow i) (v.reg_features i) + v.demand i = linregRHSRow i

/-- Returns `true` exactly on the predictor constraints `linreg[i,0]`. -/
def isLinregC : LPConstr → Bool
  | LPConstr.linreg _ _ => true
  | _ => false

/-- Returns `true` exactly on the predictor constraint of input row `i`. -/
def isLinregRowC (i : Fin 8) : LPConstr → Bool
  | LPConstr.linreg k _ => k == i
  | _ => false

/-- A concrete feasible point of the avocado model: allocations summing to the
supply 30 within their bounds, zero sales, waste equal to allocation, regression
features at their lower bounds (price 0), and demand at the predictor's value. -/
def witX : Fin 8 → ℚ
  | 0 => 5
  | 1 => 4
  | 2 => 5
  | 3 => 1/2
  | 4 => 6
  | 5 => 4
  | 6 => 7/2
  | 7 => 2

/-- A concrete feasible point of the avocado model (see `witX`). -/
def witAssign : AvocadoVars where
  x := witX
  w := witX
  s := fun _ => 0
  demand := fun i => linregRHSRow i - dot10 (linregCoefRow i) (regLB i)
  reg_features := regLB

instance (v : AvocadoVars) : Decidable (boundsSat v) := by
  unfold boundsSat; infer_instance

instance (v : AvocadoVars) : Decidable (feasible v) := by
  unfold feasible; infer_instance

instance (v : AvocadoVars) (c : LPConstr) : Decidable (constrSat v c) := by
  cases c <;> (dsimp [constrSat]; infer_instance)

set_option maxHeartbeats 3000000 in
/-- The predictor's demand value at the witness feature rows is nonnegative. -/
theorem witDemand_nonneg (i : Fin 8) : 0 ≤ witAssign.demand i := by
  fin_cases i <;>
    norm_num [witAssign, dot10, linregCoefRow, regLB, linregRHSRow,
      linregCoefs0, linregCoefs1, linregCoefs2, linregCoefs3, linregCoefs4,
      linregCoefs5, linregCoefs6, linregCoefs7]

/-- The witness point is feasible. -/
theorem witAssign_feasible : feasible witAssign := by
  unfold feasible boundsSat
  refine ⟨?_, ?_, ?_, ?_, ?_, ?_, ?_, ?_, ?_⟩
  · norm_num [sum8, witAssign, witX]
  · intro i; fin_cases i <;> norm_num [witAssign, witX]
  · intro i
    have h := witDemand_nonneg i
    show (0 : ℚ) - witAssign.demand i ≤ 0
    linarith
  · intro i
    show -witX i + 0 + witX i = 0
    ring
  · intro i
    show dot10 (linregCoefRow i) (regLB i) +
      (linregRHSRow i - dot10 (linregCoefRow i) (regLB i)) = linregRHSRow i
    ring
  · intro i; fin_cases i <;> norm_num [witAssign, witX, xlb, xub]
  · intro i; exact le_refl 0
  · intro i; fin_cases i <;> norm_num [witAssign, witX]
  · intro i j
    refine ⟨le_refl _, ?_⟩
    show regLB i j ≤ regUB i j
    unfold regUB
    split
    · next h =>
        subst h
        fin_cases i <;> norm_num [regLB]
    · exact le_refl _

/-- All eight `linreg[i,0]` constraints carry the same coefficient row. -/
theorem linregCoefRow_eq (i : Fin 8) (j : Fin 10) :
    linregCoefRow i j = linregCoefs0 j := by
  fin_cases i <;> fin_cases j <;> rfl

/-- All eight `linreg[i,0]` constraints carry the same right-hand side. -/
theorem linregRHSRow_eq (i : Fin 8) : linregRHSRow i = linRegIntercept := by
  fin_cases i <;> rfl

/-- The dot product only depends on the values of its arguments. -/
theorem dot10_congr_left (a a' b : Fin 10 → ℚ) (h : ∀ j, a j = a' j) :
    dot10 a b = dot10 a' b := by
  unfold dot10
  rw [h 0, h 1, h 2, h 3, h 4, h 5, h 6, h 7, h 8, h 9]

/-- The predictor's coefficient vector is the negation of the LP row. -/
theorem dot10_linRegCoef (b : Fin 10 → ℚ) :
    dot10 linRegCoef b = -dot10 linregCoefs0 b := by
  unfold dot10 linRegCoef; ring

/-- In every feasible solution of the avocado model, the demand variable of
each row equals the trained predictor's affine prediction on that row. -/
theorem feasible_demand_eq (v : AvocadoVars) (hv : feasible v) (i : Fin 8) :
    v.demand i = linRegPredict (v.reg_features i) := by
  obtain ⟨-, -, -, -, hlin, -⟩ := hv
  have h := hlin i
  rw [dot10_congr_left _ _ _ (linregCoefRow_eq i), linregRHSRow_eq i] at h
  unfold linRegPredict
  rw [dot10_linRegCoef]
  linarith

/-- The single equality `linreg[i,0]` is equivalent to requiring the output
variable to equal the predictor's prediction on row `i`. -/
theorem linreg_iff_predict (v : AvocadoVars) (i : Fin 8) :
    constrSat v (LPConstr.linreg i 0) ↔
      v.demand i = linRegPredict (v.reg_features i) := by
  show dot10 (linregCoefRow i) (v.reg_features i) + v.demand i = linregRHSRow i ↔ _
  rw [dot10_congr_left _ _ _ (linregCoefRow_eq i), linregRHSRow_eq i]
  unfold linRegPredict
  rw [dot10_linRegCoef]
  constructor <;> intro h <;> linarith

/-- C1: for every input row `i` of the avocado model, the translation adds one
linear equality constraint `linreg[i,0]` which holds exactly when `demand[i]`
equals the trained predictor's affine prediction
`intercept + sum_j coef[j] * reg_features[i,j]` on that row (with the single
fixed coefficient vector `linRegCoef` and intercept `linRegIntercept`); hence
in every feasible solution the modeled output coincides with the predictor's
prediction function applied to the modeled input variables. -/
theorem claim_C1 (v : AvocadoVars) (i : Fin 8) :
    (constrSat v (LPConstr.linreg i 0) ↔
      v.demand i = linRegPredict (v.reg_features i)) ∧
    (feasible v → v.demand i = linRegPredict (v.reg_features i)) :=
  ⟨linreg_iff_predict v i, fun hv => feasible_demand_eq v hv i⟩

/-- Witness for C1 at the concrete feasible point `witAssign`, row 0. -/
theorem claim_C1_wit :
    witAssign.demand 0 = linRegPredict (witAssign.reg_features 0) :=
  (claim_C1 witAssign 0).2 witAssign_feasible

/-- C6: the material-balance invariant. Every feasible solution of the avocado
model allocates exactly the supply `30`, splits each allocation into sales and
waste, sells no more than the allocation nor than the predicted demand, keeps
sales and waste nonnegative, and wastes exactly the unsold allocation. -/
theorem claim_C6 (v : AvocadoVars) (hv : feasible v) :
    sum8 v.x = 30 ∧
    ∀ i : Fin 8, v.x i = v.s i + v.w i ∧ v.s i ≤ v.x i ∧ v.s i ≤ v.demand i ∧
      0 ≤ v.s i ∧ 0 ≤ v.w i ∧ v.w i = v.x i - v.s i := by
  obtain ⟨hsupply, hss, hsd, hw, -, -, hs0, hw0, -⟩ := hv
  refine ⟨hsupply, fun i => ?_⟩
  have h1 := hss i
  have h2 := hsd i
  have h3 := hw i
  have h4 := hs0 i
  have h5 := hw0 i
  refine ⟨by linarith, by linarith, by linarith, h4, h5, by linarith⟩

/-- Witness for C6 at the concrete feasible point `witAssign`. -/
theorem claim_C6_wit : sum8 witAssign.x = 30 :=
  (claim_C6 witAssign witAssign_feasible).1

/-- C7: uniform row-wise application. All eight `linreg[i,0]` constraints use
the identical coefficient vector (`0.2426931536778747`, `-1.433019836643237`,
`3.01924379063788`, `1.815032872390411`, `-1.713812073973461`,
`-0.5839901666611677`, `-2.601799448641272`, `-0.1607693023184433`,
`2.203770104890248`, `-0.5485105058308409`) and the identical right-hand side
`5.439310052165032`; consequently the constraint placed on row `i` of any
permuted or selected input matrix is equivalent to the constraint placed on the
source row, so the translation commutes with permutation and selection of
input rows. -/
theorem claim_C7 :
    (∀ i : Fin 8,
      linregCoefRow i 0 = 2426931536778747/10^16 ∧
      linregCoefRow i 1 = -(1433019836643237/10^15) ∧
      linregCoefRow i 2 = 301924379063788/10^14 ∧
      linregCoefRow i 3 = 1815032872390411/10^15 ∧
      linregCoefRow i 4 = -(1713812073973461/10^15) ∧
      linregCoefRow i 5 = -(5839901666611677/10^16) ∧
      linregCoefRow i 6 = -(2601799448641272/10^15) ∧
      linregCoefRow i 7 = -(1607693023184433/10^16) ∧
      linregCoefRow i 8 = 2203770104890248/10^15 ∧
      linregCoefRow i 9 = -(5485105058308409/10^16) ∧
      linregRHSRow i = 5439310052165032/10^15) ∧
    (∀ (M : Fin 8 → Fin 10 → ℚ) (dm : Fin 8 → ℚ) (p : Fin 8 → Fin 8) (i : Fin 8),
      dot10 (linregCoefRow i) (M (p i)) + dm (p i) = linregRHSRow i ↔
      dot10 (linregCoefRow (p i)) (M (p i)) + dm (p i) = linregRHSRow (p i)) := by
  constructor
  · intro i
    fin_cases i <;>
      exact ⟨rfl, rfl, rfl, rfl, rfl, rfl, rfl, rfl, rfl, rfl, rfl⟩
  · intro M dm p i
    rw [dot10_congr_left _ _ _ (linregCoefRow_eq i),
      dot10_congr_left _ _ _ (linregCoefRow_eq (p i)),
      linregRHSRow_eq i, linregRHSRow_eq (p i)]

/-- C4: shape inference. The LP file contains 33 constraints in total; exactly
8 of them are predictor constraints; they are indexed `linreg[i,0]` for
`i = 0 .. 7` with exactly one per input row and none besides (the single output
index 0 reflects the single-output predictor; the matching output vector
`demand[0..7]` has one entry per input row). -/
theorem claim_C4 :
    lpConstrs.length = 33 ∧
    lpConstrs.countP isLinregC = 8 ∧
    (∀ i : Fin 8, lpConstrs.countP (isLinregRowC i) = 1) ∧
    (∀ i : Fin 8, LPConstr.linreg i 0 ∈ lpConstrs) := by
  refine ⟨by decide, by decide, by decide, by decide⟩

/-- C5: matrix-variable creation. In the translated avocado model the created
8-by-10 `reg_features` matrix has every fixed-datum feature pinned by equal
lower and upper bounds — the one-hot region columns 0-6 to `0` or `1`, the
year column 7 to `7`, the peak column 9 to `1` — while only the price column 8
is free within `0 <= reg_features[i,8] <= 2`; and the objective's revenue term
is exactly `sum_i s[i] * reg_features[i,8]`, so the price column is the very
quantity multiplying `s[i]` there. -/
theorem claim_C5 :
    (∀ i : Fin 8, regLB i 7 = 7 ∧ regUB i 7 = 7) ∧
    (∀ i : Fin 8, regLB i 9 = 1 ∧ regUB i 9 = 1) ∧
    (∀ i : Fin 8, ∀ j : Fin 10, j.val < 7 →
      regLB i j = regUB i j ∧ (regLB i j = 0 ∨ regLB i j = 1)) ∧
    (∀ i : Fin 8, regLB i 8 = 0 ∧ regUB i 8 = 2) ∧
    (∀ v : AvocadoVars, objective v =
      sum8 (fun i => v.s i * v.reg_features i 8)
        - (1/10) * sum8 v.w
        - ((3/10) * v.x 0 + (1/10) * v.x 1 + (4/10) * v.x 2 + (5/10) * v.x 3 +
           (3/10) * v.x 4 + (2/10) * v.x 5 + (2/10) * v.x 6 + (2/10) * v.x 7)) := by
  refine ⟨?_, ?_, ?_, ?_, ?_⟩
  · intro i; fin_cases i <;> exact ⟨rfl, rfl⟩
  · intro i; fin_cases i <;> exact ⟨rfl, rfl⟩
  · intro i j hj
    fin_cases i <;> fin_cases j <;>
      first
        | exact ⟨rfl, Or.inl rfl⟩
        | exact ⟨rfl, Or.inr rfl⟩
        | exact absurd hj (of_decide_eq_false rfl)
  · intro i; fin_cases i <;> exact ⟨rfl, rfl⟩
  · intro v; unfold objective sum8; ring

/-- Witness for C5: the hypothesis `j.val < 7` discharged at row 0, column 0. -/
theorem claim_C5_wit :
    regLB 0 0 = regUB 0 0 ∧ (regLB 0 0 = 0 ∨ regLB 0 0 = 1) :=
  claim_C5.2.2.1 0 0 (by norm_num)

/-- Modelled from the spec: `AbstractPredictorConstr.get_error` — the
`gurobi_ml` package source is not part of the repository snapshot, only the
notebook call sites are.  Per the spec's bookkeeping description ("error
measurement between predicted and modeled outputs"), after the model is solved
it returns, one entry per output row, the absolute difference between the
trained predictor's prediction evaluated at the solution values of the input
variables and the solution value of the corresponding output variable. -/
def get_error (pred : (Fin 10 → ℚ) → ℚ) (inputVals : Fin 8 → Fin 10 → ℚ)
    (outputVals : Fin 8 → ℚ) : Fin 8 → ℚ :=
  fun i => |pred (inputVals i) - outputVals i|

/-- C2: on any feasible (in particular any optimal) solution of the avocado
model, `get_error` of the embedded regression evaluates to zero on every input
row — the difference between the predictor's prediction at the solution values
of `reg_features` and the solution value of `demand` vanishes, certifying that
the added constraints reproduce the predictor exactly. -/
theorem claim_C2 (v : AvocadoVars) (hv : feasible v) (i : Fin 8) :
    get_error linRegPredict v.reg_features v.demand i = 0 := by
  unfold get_error
  rw [feasible_demand_eq v hv i]
  simp

/-- Witness for C2 at the concrete feasible point `witAssign`, row 3. -/
theorem claim_C2_wit :
    get_error linRegPredict witAssign.reg_features witAssign.demand 3 = 0 :=
  claim_C2 witAssign witAssign_feasible 3

/-- A variable declaration of a `gurobipy` model: a name with a lower and an
upper bound (`none` standing for an infinite bound). -/
structure VarDecl where
  name : String
  lb : Option ℚ
  ub : Option ℚ
deriving DecidableEq

/-- Modelled from the spec: the observable state of a `gurobipy` model as far
as the glue library touches it — its variable declarations, its constraints
(abstract type `C`), its objective (abstract type `O`) and the solution
computed by the external solver, if any (abstract type `S`). -/
structure GPModel (C O S : Type) where
  vars : List VarDecl
  constrs : List C
  obj : O
  solution : Option S

/-- Modelled from the spec: `add_predictor_constr(m, predictor, input_vars,
output_vars)` — the `gurobi_ml` package source is not part of the repository
snapshot.  Per the spec it is purely structural translation: it derives from
the trained predictor (via `translate`, standing for the per-model-family
adapter) a collection of new variables and constraints and appends them to the
model; it neither trains nor modifies the predictor, never touches the
objective, never invokes the solver, and returns the predictor as-is. -/
def add_predictor_constr {C O S P : Type} (m : GPModel C O S) (predictor : P)
    (translate : P → List VarDecl × List C) : GPModel C O S × P :=
  ⟨{ vars := m.vars ++ (translate predictor).1,
     constrs := m.constrs ++ (translate predictor).2,
     obj := m.obj,
     solution := m.solution }, predictor⟩

/-- Modelled from the spec: `m.optimize()` delegates the solve entirely to the
external solver and records the solution it produces. -/
def optimize {C O S : Type} (m : GPModel C O S) (solver : GPModel C O S → S) :
    GPModel C O S :=
  { m with solution := some (solver m) }

/-- C3: `add_predictor_constr` is purely structural — it returns the predictor
unchanged, leaves the objective and the (absent) solution unchanged, only
appends to the variable and constraint lists so that every pre-existing
variable (with its name and bounds) and constraint is still present unchanged
at its original position, and solving happens only through `optimize`. -/
theorem claim_C3 {C O S P : Type} (m : GPModel C O S) (predictor : P)
    (translate : P → List VarDecl × List C) :
    (add_predictor_constr m predictor translate).2 = predictor ∧
    (add_predictor_constr m predictor translate).1.obj = m.obj ∧
    (add_predictor_constr m predictor translate).1.solution = m.solution ∧
    (add_predictor_constr m predictor translate).1.vars.take m.vars.length
      = m.vars ∧
    (add_predictor_constr m predictor translate).1.constrs.take m.constrs.length
      = m.constrs ∧
    (∀ k, k < m.vars.length →
      (add_predictor_constr m predictor translate).1.vars[k]? = m.vars[k]?) ∧
    (∀ k, k < m.constrs.length →
      (add_predictor_constr m predictor translate).1.constrs[k]? = m.constrs[k]?) ∧
    (∀ solver : GPModel C O S → S,
      (optimize m solver).solution = some (solver m)) := by
  refine ⟨rfl, rfl, rfl, ?_, ?_, ?_, ?_, fun _ => rfl⟩
  · exact List.take_left _ _
  · exact List.take_left _ _
  · intro k hk
    exact List.getElem?_append_left hk
  · intro k hk
    exact List.getElem?_append_left hk

/-- A concrete `gurobipy` model state for instantiating the frame theorems. -/
def gpWit : GPModel ℕ ℚ ℕ where
  vars := [⟨"a", some 0, some 1⟩]
  constrs := [2]
  obj := 3
  solution := none

/-- A concrete translation: one new free variable and one new constraint. -/
def trWit : ℕ → List VarDecl × List ℕ :=
  fun p => ([⟨"d", none, none⟩], [p])

/-- Witness for C3: at the concrete model `gpWit`, the pre-existing variable
is unchanged and the predictor is returned as-is. -/
theorem claim_C3_wit :
    (add_predictor_constr gpWit 5 trWit).1.vars[0]? = gpWit.vars[0]? ∧
    (add_predictor_constr gpWit 5 trWit).2 = 5 :=
  ⟨(claim_C3 gpWit 5 trWit).2.2.2.2.2.1 0 (by decide),
   (claim_C3 gpWit 5 trWit).1⟩

/-- The statistics displayed by `print_stats`: the counts of variables and
constraints the translation added to the model. -/
structure PredStats where
  addedVars : ℕ
  addedConstrs : ℕ
deriving DecidableEq

/-- Modelled from the spec: `pred_constr.print_stats()` — the `gurobi_ml`
package source is not part of the repository snapshot.  Per the spec it is
pure bookkeeping ("statistics printing"): it reports what the translation
added to the model (the counts of added variables and constraints) and hands
the model back untouched. -/
def print_stats {C O S : Type} (m : GPModel C O S) (newVars : List VarDecl)
    (newConstrs : List C) : PredStats × GPModel C O S :=
  ⟨⟨newVars.length, newConstrs.length⟩, m⟩

/-- C9: `print_stats` is pure reporting — it returns the model completely
unchanged, its counts are exactly the numbers of variables and constraints
that `add_predictor_constr` added on top of the pre-existing ones, and a
repeated call prints the same statistics on the same model. -/
theorem claim_C9 {C O S P : Type} (m : GPModel C O S) (predictor : P)
    (translate : P → List VarDecl × List C) :
    (print_stats (add_predictor_constr m predictor translate).1
        (translate predictor).1 (translate predictor).2).2
      = (add_predictor_constr m predictor translate).1 ∧
    (add_predictor_constr m predictor translate).1.vars.length
      = m.vars.length +
        (print_stats (add_predictor_constr m predictor translate).1
          (translate predictor).1 (translate predictor).2).1.addedVars ∧
    (add_predictor_constr m predictor translate).1.constrs.length
      = m.constrs.length +
        (print_stats (add_predictor_constr m predictor translate).1
          (translate predictor).1 (translate predictor).2).1.addedConstrs ∧
    (print_stats
        (print_stats (add_predictor_constr m predictor translate).1
          (translate predictor).1 (translate predictor).2).2
        (translate predictor).1 (translate predictor).2)
      = (print_stats (add_predictor_constr m predictor translate).1
          (translate predictor).1 (translate predictor).2) := by
  refine ⟨rfl, ?_, ?_, rfl⟩
  · simp [print_stats, add_predictor_constr]
  · simp [print_stats, add_predictor_constr]

/-- An assignment to the pixel variables `x` and deviation variables
`abs_diff` of the adversarial-MNIST notebook's model (`y`, the network output,
plays no role in the L1-ball constraints); `n` is the number of pixels. -/
structure MnistVars (n : ℕ) where
  x : Fin n → ℚ
  abs_diff : Fin n → ℚ

/-- `delta = 5` from the adversarial-MNIST notebook. -/
def delta : ℚ := 5

/-- The pixel-box and L1-ball constraints of the adversarial-MNIST notebook:
`x = m.addMVar(example.shape, lb=0.0, ub=1.0)`,
`abs_diff = m.addMVar(example.shape, lb=0, ub=1)`,
`m.addConstr(abs_diff >= x - example)`,
`m.addConstr(abs_diff >= -x + example)`, and
`m.addConstr(abs_diff.sum() <= delta)`; `exampleImg` models `example`. -/
def mnistFeasible {n : ℕ} (exampleImg : Fin n → ℚ) (v : MnistVars n) : Prop :=
  (∀ i, 0 ≤ v.x i ∧ v.x i ≤ 1) ∧
  (∀ i, 0 ≤ v.abs_diff i ∧ v.abs_diff i ≤ 1) ∧
  (∀ i, v.x i - exampleImg i ≤ v.abs_diff i) ∧
  (∀ i, exampleImg i - v.x i ≤ v.abs_diff i) ∧
  (∑ i, v.abs_diff i) ≤ delta

/-- C8: the L1-ball invariant. Every feasible assignment of the adversarial
model keeps each pixel in `[0, 1]` and its L1 distance to the given example at
most `delta = 5`, because the `abs_diff` variables dominate the componentwise
absolute deviation; no image outside the ball is feasible. -/
theorem claim_C8 {n : ℕ} (exampleImg : Fin n → ℚ) (v : MnistVars n)
    (hv : mnistFeasible exampleImg v) :
    (∀ i, 0 ≤ v.x i ∧ v.x i ≤ 1) ∧ (∑ i, |v.x i - exampleImg i|) ≤ delta := by
  obtain ⟨hx, -, h1, h2, hsum⟩ := hv
  refine ⟨hx, le_trans (Finset.sum_le_sum ?_) hsum⟩
  intro i _hi
  have ha := h1 i
  have hb := h2 i
  exact abs_le.mpr ⟨by linarith, ha⟩

/-- A concrete feasible point of the MNIST constraints: the example itself. -/
def mnistWit : MnistVars 1 where
  x := fun _ => 0
  abs_diff := fun _ => 0

/-- Witness for C8 at the one-pixel example `0`. -/
theorem claim_C8_wit :
    (∀ i, 0 ≤ mnistWit.x i ∧ mnistWit.x i ≤ 1) ∧
    (∑ i, |mnistWit.x i - (fun _ : Fin 1 => (0 : ℚ)) i|) ≤ delta :=
  claim_C8 (fun _ => 0) mnistWit
    (by refine ⟨?_, ?_, ?_, ?_, ?_⟩ <;> simp [mnistWit, delta])
